import Mathlib

/-!
Verification of the Depression-detector client protocol.

This file embeds, as executable Lean definitions, the client-side code of
the repository:

* `DepressionDetectorForm` (ContactFormTxt): the text-upload form that
  submits text to the backend, receives a job id, and polls the job
  status endpoint until a PDF report or an error arrives;
* `ContactForm` (the file-upload variant): the form that submits a file
  and downloads the report directly from the upload response;
* `DataUploadTxt` / `DataUpload`: the dialog sections that select a
  model and a prompt strategy and mount the forms;
* the `PROMPT_OPTIONS` catalog of prompt strategies;
* a model of the server-side job store (`getStatus`), built from the
  design document because the backend source is not part of the
  front-end tree.

Machine-level details that the claims do not touch (DOM manipulation,
console logging, blob URLs) are dropped; control flow, field names,
status codes, message strings and loop bounds are kept as in the source.
-/

namespace DepressionDetector

/-! ## Strings: JS `String.prototype.includes` -/

/-- Substring search on character lists: `listIncludes pat l` is `true`
iff `pat` occurs contiguously inside `l` (the empty pattern occurs in
every list). -/
def listIncludes (pat : List Char) : List Char → Bool
  | [] => pat.isEmpty
  | c :: cs => pat.isPrefixOf (c :: cs) || listIncludes pat cs

/-- JS `s.includes(pat)`. -/
def strIncludes (s pat : String) : Bool :=
  listIncludes pat.data s.data

/-- JS `s.startsWith(pat)`. -/
def strStartsWith (s pat : String) : Bool :=
  pat.data.isPrefixOf s.data

/-! ## HTTP responses as the client observes them -/

/-- The JSON object the client reads from a status-endpoint body:
`statusData.status`, `statusData.progress`, `errorData.error`.  A body
that does not parse as JSON is represented by `none` at the use site. -/
structure JsonStatus where
  status : String
  progress : Nat
  error : String
deriving DecidableEq

/-- One HTTP response to a `fetch` of the status endpoint: the numeric
status code, the `content-type` header (absent headers are `none`), the
body parsed as JSON when it parses (`none` when `response.json()` would
throw), and the raw body bytes (what `response.blob()` yields). -/
structure HttpResponse where
  statusCode : Nat
  contentType : Option String
  jsonBody : Option JsonStatus
  bytes : List Nat
deriving DecidableEq

/-- `fetch` marks a response `ok` exactly when the status is in
`[200, 300)`. -/
def HttpResponse.ok (r : HttpResponse) : Bool :=
  decide (200 ≤ r.statusCode) && decide (r.statusCode < 300)

/-- The client's test `contentType && contentType.includes('application/pdf')`. -/
def HttpResponse.isPdf (r : HttpResponse) : Bool :=
  match r.contentType with
  | some ct => strIncludes ct "application/pdf"
  | none => false

/-- Outcome of one `fetch` call: the promise either rejects (network
failure) or resolves to a response (any status code). -/
inductive FetchResult where
  | failure
  | success (r : HttpResponse)
deriving DecidableEq

/-! ## The polling loop of `DepressionDetectorForm.onSubmit`

The loop body is a `try` block whose throws are caught by an inner
`catch` that swallows every error except those whose message starts
with `"Processing failed"`. -/

/-- The `try` block of one polling iteration, as in the source:
reject the promise on network failure; on a non-ok response read the
JSON body, throw `Processing failed: ...` when the code is `400` and
the body says `status: "error"`, and throw a temporary error otherwise;
on an ok response branch on the content type: a PDF content type means
the report is ready (its bytes are downloaded), anything else is parsed
as a JSON progress report.  `Except.error` is a thrown exception,
`.ok (some b)` is a downloaded report with bytes `b`, `.ok none` is a
still-processing iteration. -/
def pollAttempt : FetchResult → Except String (Option (List Nat))
  | .failure => .error "Failed to fetch"
  | .success r =>
    if r.ok = false then
      match r.jsonBody with
      | none => .error "Unexpected end of JSON input"
      | some errorData =>
        if r.statusCode = 400 ∧ errorData.status = "error" then
          .error ("Processing failed: " ++ errorData.error)
        else
          .error "Temporary polling error"
    else
      if r.isPdf then
        .ok (some r.bytes)
      else
        match r.jsonBody with
        | some _ => .ok none
        | none => .error "Unexpected end of JSON input"

/-- What one loop iteration does to the loop state. -/
inductive PollOutcome where
  | downloaded (bytes : List Nat)
  | keepPolling
  | abort (msg : String)
deriving DecidableEq

/-- One full polling iteration: the `try` block plus the inner `catch`,
which logs and swallows every error whose message does not start with
`"Processing failed"` and rethrows the ones that do. -/
def pollStep (f : FetchResult) : PollOutcome :=
  match pollAttempt f with
  | .ok (some b) => .downloaded b
  | .ok none => .keepPolling
  | .error msg =>
    if strStartsWith msg "Processing failed" then .abort msg else .keepPolling

/-- `const maxPolls = 600; // 10 minutes max` -/
def maxPolls : Nat := 600

/-- `await new Promise(r => setTimeout(r, 1000))` before each poll. -/
def pollIntervalMs : Nat := 1000

/-- Terminal outcome of the polling loop, as surfaced by
`DepressionDetectorForm.onSubmit` after the loop. -/
inductive ClientResult where
  | report (bytes : List Nat)
  | processingFailed (msg : String)
  | timeout
deriving DecidableEq

/-- The `while (!isComplete && pollCount < maxPolls)` loop.  `env k` is
the fetch outcome of the `k`-th poll attempt (`pollCount = k`), `fuel`
is the number of attempts still allowed.  When the budget runs out the
code after the loop throws
`'Processing timeout - took longer than 10 minutes'`. -/
def pollFrom (env : Nat → FetchResult) : Nat → Nat → ClientResult
  | _, 0 => .timeout
  | count, fuel + 1 =>
    match pollStep (env count) with
    | .downloaded b => .report b
    | .abort m => .processingFailed m
    | .keepPolling => pollFrom env (count + 1) fuel

/-- The whole polling phase: attempts are numbered `1, ..., maxPolls`. -/
def runClientPolling (env : Nat → FetchResult) : ClientResult :=
  pollFrom env 1 maxPolls

/-! ## The upload request and the two client flows -/

/-- The response to the `POST /api/upload` submission, as each form
reads it: status code, the `job_id` field of the JSON body when
present, the `error` field of the JSON body when present, and the raw
body bytes. -/
structure UploadResponse where
  statusCode : Nat
  jobIdField : Option String
  errorField : Option String
  bytes : List Nat
deriving DecidableEq

/-- `uploadResponse.ok`. -/
def UploadResponse.ok (u : UploadResponse) : Bool :=
  decide (200 ≤ u.statusCode) && decide (u.statusCode < 300)

/-- Overall outcome of `DepressionDetectorForm.onSubmit` (text upload). -/
inductive TextClientResult where
  | uploadFailed (msg : String)
  | report (bytes : List Nat)
  | processingFailed (msg : String)
  | timeout
deriving DecidableEq

/-- `DepressionDetectorForm.onSubmit` after the form data is sent: a
non-ok upload response throws immediately; otherwise the client reads
`job_id` and enters the polling loop.  When the `job_id` field is
missing, every poll iteration throws a `TypeError` on
`jobId.substring(0, 8)`, which the inner catch swallows, so the loop
exhausts its budget and the client reports its local timeout. -/
def textClientRun (u : UploadResponse) (env : Nat → FetchResult) :
    TextClientResult :=
  if u.ok = false then
    .uploadFailed ((u.errorField).getD "Upload failed")
  else
    match u.jobIdField with
    | none => .timeout
    | some _ =>
      match runClientPolling env with
      | .report b => .report b
      | .processingFailed m => .processingFailed m
      | .timeout => .timeout

/-- Overall outcome of the file-upload `ContactForm.onSubmit`. -/
inductive FileClientResult where
  | failed (msg : String)
  | report (bytes : List Nat)
deriving DecidableEq

/-- The file-upload `ContactForm.onSubmit` after the form data is sent:
a non-ok response throws with the body's `error` field; an ok response
is downloaded as the PDF report directly (`response.blob()`), with no
job id and no polling. -/
def fileClientRun (u : UploadResponse) : FileClientResult :=
  if u.ok = false then
    .failed ((u.errorField).getD "Processing failed")
  else
    .report u.bytes

/-! ## Form validation and form data -/

/-- The `react-hook-form` rules of the text field:
`required: "Please enter text to analyze"` and
`minLength: 10`.  `required` fails exactly on the empty string (no
trimming); `minLength` compares the untrimmed length.  Returns the
error message, or `none` when the field validates. -/
def validateText (s : String) : Option String :=
  if s = "" then some "Please enter text to analyze"
  else if s.length < 10 then some "Text must be at least 10 characters"
  else none

/-- The `FormData` built by `DepressionDetectorForm.onSubmit`:
`formData.append("llm", llm); formData.append("text", values.text)`. -/
def textFormData (llm text : String) : List (String × String) :=
  [("llm", llm), ("text", text)]

/-- The text-upload dialog submission path: `DataUploadTxt` passes
`llm={selectedLLM} prompt={selectedPrompt}` to the form, but
`DepressionDetectorForm({ onSuccess, llm })` binds no `prompt` prop, so
the request body is built from `llm` and the text alone. -/
def dataUploadTxtSubmit (selectedLLM selectedPrompt text : String) :
    List (String × String) :=
  textFormData selectedLLM text

/-- `form.handleSubmit(onSubmit)`: `onSubmit` runs, and a request is
sent, only when the field rules validate. -/
def handleTextSubmit (selectedLLM selectedPrompt text : String) :
    Option (List (String × String)) :=
  match validateText text with
  | some _ => none
  | none => some (dataUploadTxtSubmit selectedLLM selectedPrompt text)

/-- The `FormData` built by the file-upload `ContactForm.onSubmit`:
`formData.append('file', file)` and nothing else. -/
def fileFormData (file : String) : List (String × String) :=
  [("file", file)]

/-- The file-upload dialog submission path: `DataUpload` passes
`llm={selectedLLM}` to the form, but `ContactForm({ onSuccess })` binds
no `llm` prop, so the request body holds the file alone. -/
def dataUploadSubmit (selectedLLM file : String) :
    List (String × String) :=
  fileFormData file

/-! ## The prompt-strategy catalog (`PROMPT_OPTIONS` in `DataUploadTxt`) -/

/-- One entry of `PROMPT_OPTIONS`: a wire value and a display label. -/
structure PromptOption where
  value : String
  label : String
deriving DecidableEq

/-- The catalog, verbatim from `DataUploadTxt`. -/
def PROMPT_OPTIONS : List PromptOption :=
  [⟨"simple", "Simple (Binary Classification)"⟩,
   ⟨"structured", "Structured (Checklist)"⟩,
   ⟨"feature_extraction", "Feature Extraction (Metrics)"⟩,
   ⟨"chain_of_thought", "Chain-of-Thought (Reasoning)"⟩,
   ⟨"few_shot", "Few-Shot (Example Based)"⟩,
   ⟨"free_form", "Free-Form (Narrative)"⟩]

/-- The `selectedPrompt` state after a sequence of dropdown clicks:
it starts at `"simple"` and each click on the entry at index `i` of the
rendered `PROMPT_OPTIONS` menu sets it to that entry's `value` (an
out-of-range index corresponds to no menu item and leaves the state). -/
def selectedPromptAfter (clicks : List Nat) : String :=
  clicks.foldl
    (fun cur i =>
      match PROMPT_OPTIONS.get? i with
      | some o => o.value
      | none => cur)
    "simple"

/-! ## Server-side job store, modelled from the design document -/

/-- Modelled from the spec: the job `status` enumeration
(`pending`, `running`, `complete`, `error`); the backend orchestrator
(`api/app.py`) is not part of the front-end tree. -/
inductive JobStatus where
  | pending
  | running
  | complete
  | error
deriving DecidableEq

/-- Modelled from the spec: a Job record with `status`, `progress`,
and a `result` (report bytes) populated only on `complete` and an
`error` message populated only on `error`; the backend orchestrator
(`api/app.py`) is not part of the front-end tree. -/
structure Job where
  status : JobStatus
  progress : Nat
  result : Option (List Nat)
  error : Option String
deriving DecidableEq

/-- Modelled from the spec: the `JobView` a status query returns —
status and progress while in progress, the report bytes on `complete`,
the classified error message on `error`. -/
inductive JobView where
  | inProgress (status : JobStatus) (progress : Nat)
  | done (bytes : List Nat)
  | failed (msg : String)
  | notFound
deriving DecidableEq

/-- Modelled from the spec: how a Job is rendered into a `JobView`. -/
def jobView (j : Job) : JobView :=
  match j.status with
  | .complete => .done (j.result.getD [])
  | .error => .failed (j.error.getD "")
  | s => .inProgress s j.progress

/-- Modelled from the spec: `getStatus(jobId)` over an in-memory job
store — a pure read that returns the view of the job (or `notFound`)
together with the store it leaves behind, which it does not mutate. -/
def getStatus (store : List (String × Job)) (jobId : String) :
    JobView × List (String × Job) :=
  match store.lookup jobId with
  | none => (.notFound, store)
  | some j => (jobView j, store)

/-- `n + 1` successive `getStatus` calls for the same job id, each one
running against the store left behind by the previous call; returns the
last call's view and store. -/
def getStatusIter (store : List (String × Job)) (jobId : String) :
    Nat → JobView × List (String × Job)
  | 0 => getStatus store jobId
  | n + 1 => getStatus (getStatusIter store jobId n).2 jobId

/-! # Helper lemmas -/

theorem strStartsWith_processingFailed (e : String) :
    strStartsWith ("Processing failed: " ++ e) "Processing failed" = true := by
  rw [strStartsWith, List.isPrefixOf_iff_prefix]
  have hdata : ("Processing failed: " ++ e).data =
      "Processing failed".data ++ (": ".data ++ e.data) := by
    have h1 : "Processing failed: ".data =
        "Processing failed".data ++ ": ".data := by decide
    simp [h1]
  rw [hdata]
  exact List.prefix_append _ _

theorem ok_false_of_400 {r : HttpResponse} (h : r.statusCode = 400) :
    r.ok = false := by
  simp [HttpResponse.ok, h]

theorem pollStep_failure_eq : pollStep .failure = .keepPolling := by
  decide

theorem pollStep_pdf {r : HttpResponse} (hok : r.ok = true)
    (hpdf : r.isPdf = true) :
    pollStep (.success r) = .downloaded r.bytes := by
  simp [pollStep, pollAttempt, hok, hpdf]

theorem pollStep_ok_json_some {r : HttpResponse} {j : JsonStatus}
    (hok : r.ok = true) (hpdf : r.isPdf = false) (hj : r.jsonBody = some j) :
    pollStep (.success r) = .keepPolling := by
  simp [pollStep, pollAttempt, hok, hpdf, hj]

theorem pollStep_ok_json_none {r : HttpResponse} (hok : r.ok = true)
    (hpdf : r.isPdf = false) (hj : r.jsonBody = none) :
    pollStep (.success r) = .keepPolling := by
  simp [pollStep, pollAttempt, hok, hpdf, hj]
  decide

theorem pollStep_400_error {r : HttpResponse} {j : JsonStatus}
    (h400 : r.statusCode = 400) (hj : r.jsonBody = some j)
    (hs : j.status = "error") :
    pollStep (.success r) = .abort ("Processing failed: " ++ j.error) := by
  simp [pollStep, pollAttempt, ok_false_of_400 h400, hj, h400, hs,
    strStartsWith_processingFailed]

theorem pollStep_nonOk_json_none {r : HttpResponse} (hok : r.ok = false)
    (hj : r.jsonBody = none) :
    pollStep (.success r) = .keepPolling := by
  simp [pollStep, pollAttempt, hok, hj]
  decide

theorem pollStep_nonOk_temporary {r : HttpResponse} {j : JsonStatus}
    (hok : r.ok = false) (hj : r.jsonBody = some j)
    (hc : ¬(r.statusCode = 400 ∧ j.status = "error")) :
    pollStep (.success r) = .keepPolling := by
  simp [pollStep, pollAttempt, hok, hj, hc]
  decide

theorem pollStep_downloaded_inv {f : FetchResult} {b : List Nat}
    (h : pollStep f = .downloaded b) :
    ∃ r, f = .success r ∧ r.ok = true ∧ r.isPdf = true ∧ b = r.bytes := by
  cases f with
  | failure => rw [pollStep_failure_eq] at h; cases h
  | success r =>
    cases hok : r.ok with
    | false =>
      cases hj : r.jsonBody with
      | none => rw [pollStep_nonOk_json_none hok hj] at h; cases h
      | some j =>
        by_cases hc : r.statusCode = 400 ∧ j.status = "error"
        · rw [pollStep_400_error hc.1 hj hc.2] at h; cases h
        · rw [pollStep_nonOk_temporary hok hj hc] at h; cases h
    | true =>
      cases hpdf : r.isPdf with
      | false =>
        cases hj : r.jsonBody with
        | none => rw [pollStep_ok_json_none hok hpdf hj] at h; cases h
        | some j => rw [pollStep_ok_json_some hok hpdf hj] at h; cases h
      | true =>
        rw [pollStep_pdf hok hpdf] at h
        injection h with hb
        exact ⟨r, rfl, hok, hpdf, hb.symm⟩

theorem pollStep_abort_inv {f : FetchResult} {m : String}
    (h : pollStep f = .abort m) :
    ∃ r j, f = .success r ∧ r.statusCode = 400 ∧ r.ok = false ∧
      r.jsonBody = some j ∧ j.status = "error" ∧
      m = "Processing failed: " ++ j.error := by
  cases f with
  | failure => rw [pollStep_failure_eq] at h; cases h
  | success r =>
    cases hok : r.ok with
    | false =>
      cases hj : r.jsonBody with
      | none => rw [pollStep_nonOk_json_none hok hj] at h; cases h
      | some j =>
        by_cases hc : r.statusCode = 400 ∧ j.status = "error"
        · rw [pollStep_400_error hc.1 hj hc.2] at h
          injection h with hm
          exact ⟨r, j, rfl, hc.1, hok, hj, hc.2, hm.symm⟩
        · rw [pollStep_nonOk_temporary hok hj hc] at h; cases h
    | true =>
      cases hpdf : r.isPdf with
      | false =>
        cases hj : r.jsonBody with
        | none => rw [pollStep_ok_json_none hok hpdf hj] at h; cases h
        | some j => rw [pollStep_ok_json_some hok hpdf hj] at h; cases h
      | true => rw [pollStep_pdf hok hpdf] at h; cases h

theorem pollFrom_step_keepPolling {env : Nat → FetchResult} {c fuel : Nat}
    (h : pollStep (env c) = .keepPolling) :
    pollFrom env c (fuel + 1) = pollFrom env (c + 1) fuel := by
  simp [pollFrom, h]

theorem pollFrom_step_downloaded {env : Nat → FetchResult} {c fuel : Nat}
    {b : List Nat} (h : pollStep (env c) = .downloaded b) :
    pollFrom env c (fuel + 1) = .report b := by
  simp [pollFrom, h]

theorem pollFrom_step_abort {env : Nat → FetchResult} {c fuel : Nat}
    {m : String} (h : pollStep (env c) = .abort m) :
    pollFrom env c (fuel + 1) = .processingFailed m := by
  simp [pollFrom, h]

theorem pollFrom_timeout_of_all (env : Nat → FetchResult) :
    ∀ fuel c, (∀ k, c ≤ k → k < c + fuel → pollStep (env k) = .keepPolling) →
      pollFrom env c fuel = .timeout := by
  intro fuel
  induction fuel with
  | zero => intro c _; rfl
  | succ n ih =>
    intro c h
    rw [pollFrom_step_keepPolling (h c le_rfl (by omega))]
    exact ih (c + 1) (fun k hk1 hk2 => h k (by omega) (by omega))

theorem pollFrom_report_inv {env : Nat → FetchResult} {b : List Nat} :
    ∀ {fuel c}, pollFrom env c fuel = .report b →
      ∃ k, c ≤ k ∧ k < c + fuel ∧ pollStep (env k) = .downloaded b := by
  intro fuel
  induction fuel with
  | zero => intro c h; cases h
  | succ n ih =>
    intro c h
    cases hs : pollStep (env c) with
    | downloaded b2 =>
      rw [pollFrom_step_downloaded hs] at h
      injection h with hb
      subst hb
      exact ⟨c, le_rfl, by omega, hs⟩
    | abort m => rw [pollFrom_step_abort hs] at h; cases h
    | keepPolling =>
      rw [pollFrom_step_keepPolling hs] at h
      obtain ⟨k, hk1, hk2, hk3⟩ := ih h
      exact ⟨k, by omega, by omega, hk3⟩

theorem pollFrom_congr {env env2 : Nat → FetchResult} :
    ∀ {fuel c}, (∀ k, c ≤ k → k < c + fuel → env k = env2 k) →
      pollFrom env c fuel = pollFrom env2 c fuel := by
  intro fuel
  induction fuel with
  | zero => intro c _; rfl
  | succ n ih =>
    intro c h
    have he : env c = env2 c := h c le_rfl (by omega)
    cases hs : pollStep (env c) with
    | downloaded b2 =>
      rw [pollFrom_step_downloaded hs, pollFrom_step_downloaded (he ▸ hs)]
    | abort m =>
      rw [pollFrom_step_abort hs, pollFrom_step_abort (he ▸ hs)]
    | keepPolling =>
      rw [pollFrom_step_keepPolling hs, pollFrom_step_keepPolling (he ▸ hs)]
      exact ih (fun k hk1 hk2 => h k (by omega) (by omega))

theorem selectedPromptAfter_mem (clicks : List Nat) :
    selectedPromptAfter clicks ∈ PROMPT_OPTIONS.map PromptOption.value := by
  have key : ∀ (cs : List Nat) (cur : String),
      cur ∈ PROMPT_OPTIONS.map PromptOption.value →
      cs.foldl
        (fun cur i =>
          match PROMPT_OPTIONS.get? i with
          | some o => o.value
          | none => cur)
        cur ∈ PROMPT_OPTIONS.map PromptOption.value := by
    intro cs
    induction cs with
    | nil => intro cur h; simpa using h
    | cons i rest ih =>
      intro cur h
      rw [List.foldl_cons]
      apply ih
      cases hi : PROMPT_OPTIONS.get? i with
      | none => simpa [hi] using h
      | some o =>
        simp only [hi]
        exact List.mem_map_of_mem _ (List.get?_mem hi)
  exact key clicks "simple" (by decide)

theorem getStatus_of_lookup {store : List (String × Job)} {jobId : String}
    {j : Job} (h : store.lookup jobId = some j) :
    getStatus store jobId = (jobView j, store) := by
  simp [getStatus, h]

/-! # Claim theorems -/

/-- C6: the prompt-strategy catalog is the closed six-element
enumeration `simple`, `structured`, `feature_extraction`,
`chain_of_thought`, `few_shot`, `free_form`; the dialog enumerates
exactly these choices and its selected strategy is always one of
them. -/
theorem prompt_catalog_closed :
    PROMPT_OPTIONS.map PromptOption.value =
      ["simple", "structured", "feature_extraction", "chain_of_thought",
       "few_shot", "free_form"] ∧
    PROMPT_OPTIONS.length = 6 ∧
    (PROMPT_OPTIONS.map PromptOption.value).Nodup ∧
    (∀ clicks : List Nat,
      selectedPromptAfter clicks ∈ PROMPT_OPTIONS.map PromptOption.value) := by
  refine ⟨rfl, rfl, by decide, selectedPromptAfter_mem⟩

/-- C6 witness: a concrete click sequence ends on a catalog value. -/
theorem prompt_catalog_closed_witness :
    selectedPromptAfter [4, 2] ∈ PROMPT_OPTIONS.map PromptOption.value :=
  prompt_catalog_closed.2.2.2 [4, 2]

/-- C7: the text-upload request body holds exactly the fields `llm` and
`text`; the prompt strategy selected in the dialog is passed to the
form but never placed in the request, which therefore carries no
`promptStrategy` (or `prompt`) parameter. -/
theorem text_request_body_fields :
    ∀ llm selectedPrompt text : String,
      dataUploadTxtSubmit llm selectedPrompt text =
        [("llm", llm), ("text", text)] ∧
      (dataUploadTxtSubmit llm selectedPrompt text).map Prod.fst =
        ["llm", "text"] ∧
      (∀ otherPrompt, dataUploadTxtSubmit llm selectedPrompt text =
        dataUploadTxtSubmit llm otherPrompt text) ∧
      (∀ v, ("promptStrategy", v) ∉ dataUploadTxtSubmit llm selectedPrompt text) ∧
      (∀ v, ("prompt", v) ∉ dataUploadTxtSubmit llm selectedPrompt text) := by
  intro llm selectedPrompt text
  refine ⟨rfl, rfl, fun _ => rfl, ?_, ?_⟩ <;>
    · intro v
      simp [dataUploadTxtSubmit, textFormData]

/-- C7 witness: the theorem at a concrete dialog state. -/
theorem text_request_body_fields_witness :
    dataUploadTxtSubmit "Gemini" "chain_of_thought" "I feel hopeless" =
      [("llm", "Gemini"), ("text", "I feel hopeless")] :=
  (text_request_body_fields "Gemini" "chain_of_thought" "I feel hopeless").1

/-- C8: the file-upload request body holds only the `file` field; the
provider selected in the dropdown is passed to the form but not
accepted by it, so the request carries no `llm` (or provider)
parameter. -/
theorem file_request_body_fields :
    ∀ selectedLLM file : String,
      dataUploadSubmit selectedLLM file = [("file", file)] ∧
      (dataUploadSubmit selectedLLM file).map Prod.fst = ["file"] ∧
      (∀ otherLLM, dataUploadSubmit selectedLLM file =
        dataUploadSubmit otherLLM file) ∧
      (∀ v, ("llm", v) ∉ dataUploadSubmit selectedLLM file) ∧
      (∀ v, ("provider", v) ∉ dataUploadSubmit selectedLLM file) := by
  intro selectedLLM file
  refine ⟨rfl, rfl, fun _ => rfl, ?_, ?_⟩ <;>
    · intro v
      simp [dataUploadSubmit, fileFormData]

/-- C8 witness: the theorem at a concrete dialog state. -/
theorem file_request_body_fields_witness :
    dataUploadSubmit "LLaMA" "journal.pdf" = [("file", "journal.pdf")] :=
  (file_request_body_fields "LLaMA" "journal.pdf").1

/-- C10: `getStatus` on a terminal job is idempotent — any number of
repeated calls returns the same view (the same result or error
content) and leaves the job store unchanged. -/
theorem getStatus_idempotent_on_terminal :
    ∀ (store : List (String × Job)) (jobId : String) (j : Job),
      store.lookup jobId = some j →
      (j.status = .complete ∨ j.status = .error) →
      ∀ n, getStatusIter store jobId n = (jobView j, store) := by
  intro store jobId j hlook _hterm n
  induction n with
  | zero => exact getStatus_of_lookup hlook
  | succ n ih =>
    show getStatus (getStatusIter store jobId n).2 jobId = _
    rw [ih]
    exact getStatus_of_lookup hlook

/-- C10 witness: six successive reads of a concrete completed job all
return its report and leave the store unchanged. -/
theorem getStatus_idempotent_on_terminal_witness :
    getStatusIter [("job-1", ⟨.complete, 100, some [1, 2, 3], none⟩)]
        "job-1" 5 =
      (jobView ⟨.complete, 100, some [1, 2, 3], none⟩,
        [("job-1", ⟨.complete, 100, some [1, 2, 3], none⟩)]) :=
  getStatus_idempotent_on_terminal
    [("job-1", ⟨.complete, 100, some [1, 2, 3], none⟩)] "job-1"
    ⟨.complete, 100, some [1, 2, 3], none⟩ (by decide) (Or.inl rfl) 5

/-- C2: the polling loop queries at a fixed 1000 ms interval for at
most 600 attempts; the outcome depends only on the first 600 poll
responses, a run in which no terminal result appears within those 600
attempts ends in the client's local timeout, and that local timeout is
a distinct outcome from any server-reported error and from a report. -/
theorem polling_interval_budget_timeout :
    pollIntervalMs = 1000 ∧ maxPolls = 600 ∧
    (∀ env : Nat → FetchResult,
      (∀ k, 1 ≤ k → k ≤ maxPolls → pollStep (env k) = .keepPolling) →
      runClientPolling env = .timeout) ∧
    (∀ env env2 : Nat → FetchResult,
      (∀ k, k ≤ maxPolls → env k = env2 k) →
      runClientPolling env = runClientPolling env2) ∧
    (∀ m b, ClientResult.timeout ≠ .processingFailed m ∧
      ClientResult.timeout ≠ .report b) := by
  refine ⟨rfl, rfl, ?_, ?_, ?_⟩
  · intro env h
    exact pollFrom_timeout_of_all env maxPolls 1
      (fun k hk1 hk2 => h k hk1 (by omega))
  · intro env env2 h
    exact pollFrom_congr (fun k _ hk2 => h k (by omega))
  · intro m b
    exact ⟨by simp, by simp⟩

/-- C2 witness: an environment that always fails the fetch exhausts the
whole budget and ends in the local timeout, and the outcome is
insensitive to responses beyond attempt 600. -/
theorem polling_interval_budget_timeout_witness :
    runClientPolling (fun _ => .failure) = .timeout ∧
    runClientPolling (fun _ => .failure) =
      runClientPolling
        (fun k => if k ≤ 600 then .failure
          else .success ⟨200, some "application/pdf", none, [1]⟩) :=
  ⟨polling_interval_budget_timeout.2.2.1 (fun _ => .failure)
      (fun k _ _ => pollStep_failure_eq),
   polling_interval_budget_timeout.2.2.2.1 (fun _ => .failure) _
      (fun k hk => by simp [show k ≤ 600 from hk])⟩

/-- C3: for a successful status response the client branches solely on
the declared content type — a `application/pdf` content type makes it
take the raw body bytes as the finished report (never reading the body
as JSON), and any other content type makes it parse the body as the
JSON progress object. -/
theorem status_response_dual_shape :
    ∀ r : HttpResponse, r.ok = true →
      (r.isPdf = true →
        pollAttempt (.success r) = .ok (some r.bytes) ∧
        pollStep (.success r) = .downloaded r.bytes) ∧
      (r.isPdf = false → ∀ j, r.jsonBody = some j →
        pollAttempt (.success r) = .ok none) ∧
      (r.isPdf = false → r.jsonBody = none →
        pollAttempt (.success r) = .error "Unexpected end of JSON input") := by
  intro r hok
  refine ⟨fun hpdf => ⟨?_, pollStep_pdf hok hpdf⟩, ?_, ?_⟩
  · simp [pollAttempt, hok, hpdf]
  · intro hpdf j hj
    simp [pollAttempt, hok, hpdf, hj]
  · intro hpdf hj
    simp [pollAttempt, hok, hpdf, hj]

/-- C3 witness: the theorem at a concrete PDF response, a concrete JSON
progress response, and a concrete unparsable success response. -/
theorem status_response_dual_shape_witness :
    pollAttempt (.success ⟨200, some "application/pdf", some ⟨"running", 50, ""⟩, [37, 80]⟩) =
      .ok (some [37, 80]) ∧
    pollAttempt (.success ⟨200, some "application/json", some ⟨"running", 50, ""⟩, [37, 80]⟩) =
      .ok none ∧
    pollAttempt (.success ⟨200, none, none, [37, 80]⟩) =
      .error "Unexpected end of JSON input" :=
  ⟨((status_response_dual_shape _ (by decide)).1 (by decide)).1,
   (status_response_dual_shape _ (by decide)).2.1 (by decide) _ rfl,
   (status_response_dual_shape _ (by decide)).2.2 (by decide) rfl⟩

/-- C9: during polling every failure other than an HTTP 400 response
whose JSON body says `status: "error"` is swallowed — network
failures, non-400 error responses and unparsable bodies all leave the
loop polling, each such attempt consuming one unit of the budget — and
an early abort can only arise from the 400-with-status-error case. -/
theorem poll_failures_swallowed :
    pollStep .failure = .keepPolling ∧
    (∀ r : HttpResponse, r.ok = false → r.statusCode ≠ 400 →
      pollStep (.success r) = .keepPolling) ∧
    (∀ r : HttpResponse, r.ok = false → r.jsonBody = none →
      pollStep (.success r) = .keepPolling) ∧
    (∀ r : HttpResponse, r.ok = true → r.isPdf = false →
      pollStep (.success r) = .keepPolling) ∧
    (∀ (env : Nat → FetchResult) (c fuel : Nat),
      pollStep (env c) = .keepPolling →
      pollFrom env c (fuel + 1) = pollFrom env (c + 1) fuel) ∧
    (∀ (f : FetchResult) (m : String), pollStep f = .abort m →
      ∃ r j, f = .success r ∧ r.statusCode = 400 ∧ r.jsonBody = some j ∧
        j.status = "error") := by
  refine ⟨pollStep_failure_eq, ?_, ?_, ?_,
    fun env c fuel h => pollFrom_step_keepPolling h, ?_⟩
  · intro r hok h400
    cases hj : r.jsonBody with
    | none => exact pollStep_nonOk_json_none hok hj
    | some j => exact pollStep_nonOk_temporary hok hj (fun hc => h400 hc.1)
  · intro r hok hj
    exact pollStep_nonOk_json_none hok hj
  · intro r hok hpdf
    cases hj : r.jsonBody with
    | none => exact pollStep_ok_json_none hok hpdf hj
    | some j => exact pollStep_ok_json_some hok hpdf hj
  · intro f m h
    obtain ⟨r, j, hf, h400, _, hj, hs, _⟩ := pollStep_abort_inv h
    exact ⟨r, j, hf, h400, hj, hs⟩

/-- C9 witness: a network failure, a 500 error response, an unparsable
400 body and an unparsable 200 body are all swallowed, and a swallowed
attempt consumes one poll of the remaining budget. -/
theorem poll_failures_swallowed_witness :
    pollStep .failure = .keepPolling ∧
    pollStep (.success ⟨500, some "application/json", some ⟨"error", 0, "x"⟩, []⟩) =
      .keepPolling ∧
    pollStep (.success ⟨400, some "application/json", none, []⟩) = .keepPolling ∧
    pollStep (.success ⟨200, some "application/json", none, []⟩) = .keepPolling ∧
    pollFrom (fun _ => .failure) 1 (2 + 1) = pollFrom (fun _ => .failure) 2 2 :=
  ⟨poll_failures_swallowed.1,
   poll_failures_swallowed.2.1 _ (by decide) (by decide),
   poll_failures_swallowed.2.2.1 _ (by decide) rfl,
   poll_failures_swallowed.2.2.2.1 _ (by decide) (by decide),
   poll_failures_swallowed.2.2.2.2.1 (fun _ => .failure) 1 2
     poll_failures_swallowed.1⟩

/-- C1 counterexample: a file-upload submission with a successful
upload response yields the report directly from that submission
response's own body — no job identifier is read and no status poll
happens — so it is false that every submission retrieves the report
only through subsequent status polls. -/
theorem file_upload_report_from_submission_response :
    UploadResponse.ok ⟨200, none, none, [37, 80, 68, 70]⟩ = true ∧
    fileClientRun ⟨200, none, none, [37, 80, 68, 70]⟩ =
      .report (UploadResponse.bytes ⟨200, none, none, [37, 80, 68, 70]⟩) := by
  decide

/-- C1 amended: the text-upload client follows the submit-then-poll
protocol — whenever it ends with a report, the report bytes were
delivered by some status poll among the first 600 attempts, never by
the submission response — while the file-upload client retrieves the
report directly from the submission response body without polling. -/
theorem client_report_retrieval :
    (∀ (u : UploadResponse) (env : Nat → FetchResult) (b : List Nat),
      textClientRun u env = .report b →
      ∃ k, 1 ≤ k ∧ k ≤ maxPolls ∧ ∃ r, env k = .success r ∧
        r.ok = true ∧ r.isPdf = true ∧ b = r.bytes) ∧
    (∀ u : UploadResponse, u.ok = true → fileClientRun u = .report u.bytes) := by
  constructor
  · intro u env b h
    unfold textClientRun at h
    split at h
    · cases h
    · split at h
      · cases h
      · split at h
        case _ heq =>
          injection h with hb
          subst hb
          obtain ⟨k, hk1, hk2, hstep⟩ := pollFrom_report_inv heq
          obtain ⟨r, hf, hok, hpdf, hbytes⟩ := pollStep_downloaded_inv hstep
          exact ⟨k, hk1, by omega, r, hf, hok, hpdf, hbytes⟩
        · cases h
        · cases h
  · intro u hok
    unfold fileClientRun
    simp [hok]

/-- C1 witness: a concrete text-upload run whose report arrives from a
poll, and a concrete successful file-upload run. -/
theorem client_report_retrieval_witness :
    (∃ k, 1 ≤ k ∧ k ≤ maxPolls ∧ ∃ r,
      (fun _ : Nat => FetchResult.success ⟨200, some "application/pdf", none, [37, 80]⟩) k =
        .success r ∧
      r.ok = true ∧ r.isPdf = true ∧ [37, 80] = r.bytes) ∧
    fileClientRun ⟨200, some "job-9", none, [11]⟩ = .report [11] :=
  ⟨client_report_retrieval.1 ⟨200, some "job-9", none, []⟩
      (fun _ => .success ⟨200, some "application/pdf", none, [37, 80]⟩)
      [37, 80] (by decide),
   client_report_retrieval.2 ⟨200, some "job-9", none, [11]⟩ (by decide)⟩

/-- C4 counterexample: a non-success status response with code 500
whose JSON body says `status: "error"` does not stop the polling — the
step is swallowed, and a run that keeps receiving it spends the whole
600-attempt budget and ends in the client's local timeout instead of
surfacing the server error. -/
theorem server_error_non400_not_aborted :
    HttpResponse.ok ⟨500, some "application/json", some ⟨"error", 0, "backend down"⟩, []⟩ =
      false ∧
    pollStep (.success ⟨500, some "application/json", some ⟨"error", 0, "backend down"⟩, []⟩) =
      .keepPolling ∧
    runClientPolling
      (fun _ => .success ⟨500, some "application/json", some ⟨"error", 0, "backend down"⟩, []⟩) =
      .timeout := by
  refine ⟨by decide, by decide, ?_⟩
  exact pollFrom_timeout_of_all _ maxPolls 1
    (fun k _ _ =>
      (by decide :
        pollStep (.success ⟨500, some "application/json",
          some ⟨"error", 0, "backend down"⟩, []⟩) = .keepPolling))

/-- C4 amended: the client stops polling immediately and surfaces the
server's classified message exactly when a status poll returns an HTTP
400 response whose JSON body reports `status: "error"`; no other poll
outcome aborts the loop early. -/
theorem poll_abort_exactly_on_400_error :
    (∀ (r : HttpResponse) (j : JsonStatus), r.statusCode = 400 →
      r.jsonBody = some j → j.status = "error" →
      pollStep (.success r) = .abort ("Processing failed: " ++ j.error)) ∧
    (∀ (f : FetchResult) (m : String), pollStep f = .abort m →
      ∃ r j, f = .success r ∧ r.statusCode = 400 ∧ r.ok = false ∧
        r.jsonBody = some j ∧ j.status = "error" ∧
        m = "Processing failed: " ++ j.error) ∧
    (∀ (env : Nat → FetchResult) (c fuel : Nat) (m : String),
      pollStep (env c) = .abort m →
      pollFrom env c (fuel + 1) = .processingFailed m) := by
  refine ⟨?_, ?_, ?_⟩
  · intro r j h400 hj hs
    exact pollStep_400_error h400 hj hs
  · intro f m h
    exact pollStep_abort_inv h
  · intro env c fuel m h
    exact pollFrom_step_abort h

/-- C4 witness: a concrete 400-with-status-error response aborts the
very first poll with the server's message. -/
theorem poll_abort_exactly_on_400_error_witness :
    pollStep (.success ⟨400, some "application/json", some ⟨"error", 0, "provider auth failed"⟩, []⟩) =
      .abort ("Processing failed: " ++ "provider auth failed") ∧
    pollFrom
      (fun _ => .success ⟨400, some "application/json", some ⟨"error", 0, "provider auth failed"⟩, []⟩)
      1 (599 + 1) =
      .processingFailed ("Processing failed: " ++ "provider auth failed") :=
  ⟨poll_abort_exactly_on_400_error.1
      ⟨400, some "application/json", some ⟨"error", 0, "provider auth failed"⟩, []⟩
      ⟨"error", 0, "provider auth failed"⟩ rfl rfl rfl,
   poll_abort_exactly_on_400_error.2.2 _ 1 599 _
     (poll_abort_exactly_on_400_error.1
       ⟨400, some "application/json", some ⟨"error", 0, "provider auth failed"⟩, []⟩
       ⟨"error", 0, "provider auth failed"⟩ rfl rfl rfl)⟩

/-- C5 counterexample: a whitespace-only input of ten spaces passes the
form rules — `required` does not trim and `minLength` counts the
untrimmed length — so the submission proceeds and a request is sent,
contradicting the claim that whitespace-only input of any length is
rejected. -/
theorem whitespace_only_text_accepted :
    "          ".length = 10 ∧
    "          ".data.all (fun c => c == ' ') = true ∧
    validateText "          " = none ∧
    handleTextSubmit "Gemini" "simple" "          " =
      some [("llm", "Gemini"), ("text", "          ")] := by
  decide

/-- C5 amended: submission with an empty `inputText`, or one shorter
than 10 characters, fails synchronously at the form with a validation
error and no request is sent; the checks do not trim, so any input of
length at least 10 — whitespace-only included — passes validation and
is submitted. -/
theorem text_validation_untrimmed :
    ∀ llm selectedPrompt text : String,
      (text = "" → handleTextSubmit llm selectedPrompt text = none) ∧
      (text.length < 10 → handleTextSubmit llm selectedPrompt text = none) ∧
      (text ≠ "" → 10 ≤ text.length →
        handleTextSubmit llm selectedPrompt text =
          some (textFormData llm text)) := by
  intro llm selectedPrompt text
  refine ⟨?_, ?_, ?_⟩
  · intro h
    subst h
    rfl
  · intro h
    by_cases he : text = ""
    · subst he; rfl
    · simp [handleTextSubmit, validateText, he, h]
  · intro he hlen
    simp [handleTextSubmit, validateText, he, Nat.not_lt.mpr hlen,
      dataUploadTxtSubmit]

/-- C5 witness: the empty input and a 5-character input are rejected
with no request, and an 11-character input is submitted. -/
theorem text_validation_untrimmed_witness :
    handleTextSubmit "Gemini" "simple" "" = none ∧
    handleTextSubmit "Gemini" "simple" "tired" = none ∧
    handleTextSubmit "Gemini" "simple" "hello world" =
      some (textFormData "Gemini" "hello world") :=
  ⟨(text_validation_untrimmed "Gemini" "simple" "").1 rfl,
   (text_validation_untrimmed "Gemini" "simple" "tired").2.1 (by decide),
   (text_validation_untrimmed "Gemini" "simple" "hello world").2.2
     (by decide) (by decide)⟩

end DepressionDetector
